import Mathlib

set_option maxRecDepth 100000

/-!
Verification of the YooMoney payment server (`server.js`).

The development embeds the server's payment logic:
* a byte-level SHA-1 implementation (the `crypto.createHash('sha1')` call),
* JavaScript-style numeric coercions (`parseFloat`, `x || y` on numbers,
  `Math.floor`), with finite JS numbers modelled exactly as scaled
  decimals (`Dec`) and NaN as `none` at the `Option Dec` level
  (infinite values are outside the model),
* the in-memory `orders` map (`Map` of label to `{ amountRub, paid }`),
  modelled as an association list with JS `Map` get/set/delete semantics,
* the three payment endpoints: `POST /api/create-payment`,
  `POST /api/yoomoney-notify` and `GET /api/confirm-payment`.

Configuration values (`YOOMONEY_SECRET`, `YOOMONEY_WALLET`) are explicit
parameters of the definitions; request fields arriving urlencoded are
`Option String` with `none` for an absent field.  Definitions come first,
then the lemmas and the claim theorems.
-/

/-! ### SHA-1 over byte lists -/

/-- Truncation to a 32-bit word. -/
def mod32 (n : Nat) : Nat := n % 4294967296

/-- Left rotation of a 32-bit word `x` by `n` bits (`0 < n < 32`). -/
def rotl32 (n x : Nat) : Nat := Nat.lor (mod32 (x <<< n)) (x >>> (32 - n))

/-- UTF-8 encoding of a single character, as bytes. -/
def utf8Bytes (c : Char) : List Nat :=
  let n := c.toNat
  if n < 128 then [n]
  else if n < 2048 then [192 + n / 64, 128 + n % 64]
  else if n < 65536 then [224 + n / 4096, 128 + (n / 64) % 64, 128 + n % 64]
  else [240 + n / 262144, 128 + (n / 4096) % 64, 128 + (n / 64) % 64, 128 + n % 64]

/-- UTF-8 bytes of a string (the `update(str, 'utf8')` step). -/
def strBytes (s : String) : List Nat := s.data.flatMap utf8Bytes

/-- Big-endian 8-byte encoding of a (length) value. -/
def beBytes8 (n : Nat) : List Nat :=
  [(n >>> 56) % 256, (n >>> 48) % 256, (n >>> 40) % 256, (n >>> 32) % 256,
   (n >>> 24) % 256, (n >>> 16) % 256, (n >>> 8) % 256, n % 256]

/-- SHA-1 padding: append `0x80`, zero bytes to 56 mod 64, then the
64-bit big-endian bit length. -/
def sha1Pad (msg : List Nat) : List Nat :=
  msg ++ [128] ++ List.replicate ((119 - msg.length % 64) % 64) 0 ++ beBytes8 (8 * msg.length)

/-- Group bytes into big-endian 32-bit words. -/
def wordsOfBytes : List Nat → List Nat
  | b0 :: b1 :: b2 :: b3 :: rest =>
      (((b0 * 256 + b1) * 256 + b2) * 256 + b3) :: wordsOfBytes rest
  | _ => []

/-- The SHA-1 round function. -/
def sha1F (t b c d : Nat) : Nat :=
  if t < 20 then Nat.lor (Nat.land b c) (Nat.land (Nat.xor b 4294967295) d)
  else if t < 40 then Nat.xor (Nat.xor b c) d
  else if t < 60 then Nat.lor (Nat.lor (Nat.land b c) (Nat.land b d)) (Nat.land c d)
  else Nat.xor (Nat.xor b c) d

/-- The SHA-1 round constants. -/
def sha1K (t : Nat) : Nat :=
  if t < 20 then 1518500249
  else if t < 40 then 1859775393
  else if t < 60 then 2400959708
  else 3395469782

/-- Extend the 16-word message schedule by `n` further words. -/
def sha1Extend : Nat → List Nat → List Nat
  | 0, w => w
  | n + 1, w =>
      let len := w.length
      sha1Extend n (w ++ [rotl32 1 (Nat.xor
        (Nat.xor (w.getD (len - 3) 0) (w.getD (len - 8) 0))
        (Nat.xor (w.getD (len - 14) 0) (w.getD (len - 16) 0)))])

/-- Run the 80 SHA-1 rounds over the schedule, threading `(a, b, c, d, e)`. -/
def sha1Rounds : Nat → List Nat → Nat × Nat × Nat × Nat × Nat → Nat × Nat × Nat × Nat × Nat
  | _, [], st => st
  | t, wt :: ws, (a, b, c, d, e) =>
      let temp := mod32 (rotl32 5 a + sha1F t b c d + e + sha1K t + wt)
      sha1Rounds (t + 1) ws (temp, a, rotl32 30 b, c, d)

/-- Compress one 64-byte block into the hash state. -/
def sha1Compress (h : Nat × Nat × Nat × Nat × Nat) (block : List Nat) :
    Nat × Nat × Nat × Nat × Nat :=
  let w := sha1Extend 64 (wordsOfBytes block)
  let (a, b, c, d, e) := sha1Rounds 0 w h
  (mod32 (h.1 + a), mod32 (h.2.1 + b), mod32 (h.2.2.1 + c), mod32 (h.2.2.2.1 + d),
   mod32 (h.2.2.2.2 + e))

/-- Fold the compression function over consecutive 64-byte blocks;
`fuel` is the number of blocks. -/
def sha1Blocks : Nat → Nat × Nat × Nat × Nat × Nat → List Nat → Nat × Nat × Nat × Nat × Nat
  | 0, h, _ => h
  | fuel + 1, h, bytes => sha1Blocks fuel (sha1Compress h (bytes.take 64)) (bytes.drop 64)

/-- Lowercase hexadecimal digit for a value below 16. -/
def hexDigit (n : Nat) : Char :=
  if n < 10 then Char.ofNat (48 + n) else Char.ofNat (87 + n)

/-- The 8 lowercase hex characters of a 32-bit word, most significant first. -/
def hex8Chars (n : Nat) : List Char :=
  (List.range 8).map fun i => hexDigit ((n >>> (4 * (7 - i))) % 16)

/-- Lowercase hexadecimal SHA-1 digest of the UTF-8 bytes of a string:
the embedding of `crypto.createHash('sha1').update(str, 'utf8').digest('hex')`. -/
def sha1Hex (s : String) : String :=
  let padded := sha1Pad (strBytes s)
  let h := sha1Blocks (padded.length / 64)
    (1732584193, 4023233417, 2562383102, 271733878, 3285377520) padded
  String.mk (hex8Chars h.1 ++ hex8Chars h.2.1 ++ hex8Chars h.2.2.1 ++
    hex8Chars h.2.2.2.1 ++ hex8Chars h.2.2.2.2)

/-- A lowercase hexadecimal digit character. -/
def isLowerHexChar (c : Char) : Bool :=
  decide (('0' ≤ c ∧ c ≤ '9') ∨ ('a' ≤ c ∧ c ≤ 'f'))

/-! ### JavaScript numeric coercions -/

/-- A finite JS number, represented exactly as the scaled decimal
`mant / 10 ^ exp`.  All numbers the payment flow manipulates arise from
decimal literals, so this representation is exact; a NaN result is
`none` at the `Option Dec` level. -/
structure Dec where
  mant : Int
  exp : Nat
deriving DecidableEq

/-- The JS number `0`. -/
def Dec.zero : Dec := ⟨0, 0⟩

/-- A `Dec` is the number zero iff its mantissa is zero (JS falsiness,
including `-0`). -/
def Dec.isZero (d : Dec) : Bool := d.mant = 0

/-- `Math.floor` on the represented value: `⌊mant / 10 ^ exp⌋`,
rounding toward minus infinity. -/
def Dec.floor (d : Dec) : Int := Int.fdiv d.mant (10 ^ d.exp)

/-- The rational value a `Dec` stands for. -/
def Dec.toRat (d : Dec) : ℚ := (d.mant : ℚ) / (10 : ℚ) ^ d.exp

/-- JS `a || b` on numbers, with `a : Option Dec` (`none` = NaN):
NaN and `0` are falsy and fall through to `b`. -/
def jsNumOr (a : Option Dec) (b : Dec) : Dec :=
  match a with
  | some x => if x.isZero then b else x
  | none => b

/-- Numeric value of a run of decimal digit characters. -/
def digitsToNat (ds : List Char) : Nat :=
  ds.foldl (fun n c => 10 * n + (c.toNat - 48)) 0

/-- Signed exponent digits following an `e`/`E` marker; `none` when no
digits follow (the marker is then not part of the number). -/
def parseExpDigits (cs : List Char) : Option Int :=
  match cs with
  | '-' :: ds =>
      if (ds.takeWhile Char.isDigit).isEmpty then none
      else some (-(digitsToNat (ds.takeWhile Char.isDigit) : Int))
  | '+' :: ds =>
      if (ds.takeWhile Char.isDigit).isEmpty then none
      else some (digitsToNat (ds.takeWhile Char.isDigit) : Int)
  | ds =>
      if (ds.takeWhile Char.isDigit).isEmpty then none
      else some (digitsToNat (ds.takeWhile Char.isDigit) : Int)

/-- Optional exponent part after the mantissa: contributes `0` when absent
or malformed. -/
def parseExpPart (cs : List Char) : Int :=
  match cs with
  | 'e' :: r => (parseExpDigits r).getD 0
  | 'E' :: r => (parseExpDigits r).getD 0
  | _ => 0

/-- Apply a signed decimal exponent `e` to a mantissa `m` with `f`
fractional digits. -/
def applyExp (m : Int) (f : Nat) (e : Int) : Dec :=
  if 0 ≤ e then { mant := m * (10 : Int) ^ e.toNat, exp := f }
  else { mant := m, exp := f + (-e).toNat }

/-- Whitespace skipped by `parseFloat` before the number. -/
def isJsSpace (c : Char) : Bool :=
  c == ' ' || c == '\t' || c == '\n' || c == '\r' || c == Char.ofNat 11 || c == Char.ofNat 12

/-- Sign, mantissa and fractional-digit count of a numeric literal
prefix, with the unconsumed rest; `none` when the input has no numeric
prefix. -/
def parseMantissa (cs : List Char) : Option (Int × Nat × List Char) :=
  let sgnRest : Int × List Char :=
    match cs with
    | '-' :: r => (-1, r)
    | '+' :: r => (1, r)
    | _ => (1, cs)
  let sgn := sgnRest.1
  let cs1 := sgnRest.2
  let ip := cs1.takeWhile Char.isDigit
  let cs2 := cs1.dropWhile Char.isDigit
  match cs2 with
  | '.' :: r =>
      let fp := r.takeWhile Char.isDigit
      if ip.isEmpty && fp.isEmpty then none
      else some (sgn * (digitsToNat ip * 10 ^ fp.length + digitsToNat fp : Int),
        fp.length, r.dropWhile Char.isDigit)
  | _ => if ip.isEmpty then none else some (sgn * (digitsToNat ip : Int), 0, cs2)

/-- JS `parseFloat` on a string: value of the longest numeric prefix after
leading whitespace; `none` models NaN. -/
def parseFloatStr (s : String) : Option Dec :=
  match parseMantissa (s.data.dropWhile isJsSpace) with
  | none => none
  | some (m, f, rest) => some (applyExp m f (parseExpPart rest))

/-- `parseFloat` applied to a possibly absent field:
`parseFloat(undefined)` is NaN. -/
def parseFloatJS (s : Option String) : Option Dec :=
  match s with
  | none => none
  | some str => parseFloatStr str

/-! ### Data model: the in-memory `orders` map -/

/-- One order record: `{ amountRub, paid }`. -/
structure Order where
  amountRub : Int
  paid : Bool
deriving DecidableEq

/-- The `orders` table, keyed by label, in insertion order. -/
abbrev Orders := List (String × Order)

/-- `orders.get(key)` — `orders.has(key)` is `(ordersGet m key).isSome`. -/
def ordersGet : Orders → String → Option Order
  | [], _ => none
  | (k, v) :: rest, key => if k = key then some v else ordersGet rest key

/-- `orders.set(key, v)`: replace in place, append when the key is new. -/
def ordersSet : Orders → String → Order → Orders
  | [], key, v => [(key, v)]
  | (k, w) :: rest, key, v =>
      if k = key then (key, v) :: rest else (k, w) :: ordersSet rest key v

/-- `orders.delete(key)`. -/
def ordersDelete : Orders → String → Orders
  | [], _ => []
  | (k, w) :: rest, key =>
      if k = key then ordersDelete rest key else (k, w) :: ordersDelete rest key

/-! ### HTTP replies -/

/-- The response body shapes the three payment handlers produce. -/
inductive ReplyBody where
  | text (s : String)
  | jsonError (error : String)
  | amountMsg (amount : Int) (message : String)
  | amountOnly (amount : Int)
  | payment (orderId : String)
deriving DecidableEq

/-- An HTTP reply: status code and body (`res.json(...)` defaults to 200). -/
structure Reply where
  status : Nat
  body : ReplyBody
deriving DecidableEq

/-! ### The webhook body and signature verification -/

/-- Fields of a `POST /api/yoomoney-notify` body (urlencoded strings;
`none` for an absent field). -/
structure NotifyBody where
  notification_type : Option String
  operation_id : Option String
  amount : Option String
  currency : Option String
  datetime : Option String
  sender : Option String
  codepro : Option String
  label : Option String
  withdraw_amount : Option String
  sha1_hash : Option String
deriving DecidableEq

/-- The `&`-joined nine-field string the signature is computed over.
`Array.prototype.join` renders an absent (`undefined`) element as the
empty string, and the code additionally defaults `sender` and `label`
with `|| ''`. -/
def signatureString (secret : String) (p : NotifyBody) : String :=
  String.intercalate "&"
    [p.notification_type.getD "", p.operation_id.getD "", p.amount.getD "",
     p.currency.getD "", p.datetime.getD "", p.sender.getD "",
     p.codepro.getD "", secret, p.label.getD ""]

/-- `verifyYooMoneySignature(params)`: recompute the SHA-1 hex digest of
the joined fields and strictly compare with `params.sha1_hash`
(comparison with an absent hash is `false`). -/
def verifyYooMoneySignature (secret : String) (p : NotifyBody) : Bool :=
  match p.sha1_hash with
  | some h => sha1Hex (signatureString secret p) == h
  | none => false

/-! ### The three payment endpoints -/

/-- `POST /api/create-payment`. The request's `amount` field is modelled
by the value of `Number(req.body.amount)` (`none` = NaN); the generated
label (`Date.now()` plus randomness) is a parameter. The payment URL,
a pure string for an external redirect, is outside the embedding; the
reply carries the `orderId`. -/
def createPayment (wallet : String) (orders : Orders) (amountNum : Option Dec)
    (label : String) : Reply × Orders :=
  let amountRub : Int := (jsNumOr amountNum Dec.zero).floor
  if amountRub < 1 then
    (⟨400, ReplyBody.jsonError "Сумма должна быть не менее 1 руб"⟩, orders)
  else if wallet = "" then
    (⟨500, ReplyBody.jsonError "YOOMONEY_WALLET not set"⟩, orders)
  else
    (⟨200, ReplyBody.payment label⟩,
      ordersSet orders label { amountRub := amountRub, paid := false })

/-- The notification's amount:
`parseFloat(body.withdraw_amount) || parseFloat(body.amount) || 0`. -/
def notifyAmount (body : NotifyBody) : Dec :=
  jsNumOr (parseFloatJS body.withdraw_amount)
    (jsNumOr (parseFloatJS body.amount) Dec.zero)

/-- `POST /api/yoomoney-notify`. The signature is checked only when
`YOOMONEY_SECRET` is non-empty (a falsy secret skips the check). -/
def yoomoneyNotify (secret : String) (orders : Orders) (body : NotifyBody) :
    Reply × Orders :=
  if secret ≠ "" ∧ verifyYooMoneySignature secret body = false then
    (⟨400, ReplyBody.text "bad signature"⟩, orders)
  else if body.codepro = some "true" then
    (⟨200, ReplyBody.text "OK"⟩, orders)
  else
    let label := body.label.getD ""
    let orders1 :=
      match ordersGet orders label with
      | some order =>
          if label = "" then orders
          else ordersSet orders label
            { amountRub :=
                if (notifyAmount body).floor = 0 then order.amountRub
                else (notifyAmount body).floor,
              paid := true }
      | none => orders
    (⟨200, ReplyBody.text "OK"⟩, orders1)

/-- `GET /api/confirm-payment?orderId=...`. The query parameter is
`none` when absent; an empty string is present but falsy. -/
def confirmPayment (orders : Orders) (orderId : Option String) : Reply × Orders :=
  match orderId with
  | none => (⟨400, ReplyBody.jsonError "No orderId"⟩, orders)
  | some oid =>
      if oid = "" then (⟨400, ReplyBody.jsonError "No orderId"⟩, orders)
      else
        match ordersGet orders oid with
        | none => (⟨404, ReplyBody.jsonError "Order not found"⟩, orders)
        | some order =>
            if order.paid = false then
              (⟨200, ReplyBody.amountMsg 0 "Waiting for YooMoney confirmation..."⟩, orders)
            else
              (⟨200, ReplyBody.amountOnly order.amountRub⟩, ordersDelete orders oid)

/-! ### The amount update as the claims describe it -/

/-- The updated amount as the claim describes it (stated from the claim's
words, to be compared with the handler's computation): the floor of
`parseFloat(withdraw_amount)`; when that is absent, unparsable or zero,
the floor of `parseFloat(amount)`; when the resulting floor is 0 (or the
fallback is NaN), the originally requested amount is kept. -/
def claimedNewAmount (b : NotifyBody) (orig : Int) : Int :=
  let base : Option Dec :=
    match parseFloatJS b.withdraw_amount with
    | some x => if x.isZero then parseFloatJS b.amount else some x
    | none => parseFloatJS b.amount
  match base with
  | none => orig
  | some x => if x.floor = 0 then orig else x.floor

/-! ### Concrete bodies and tables for witnesses and counterexamples -/

/-- Webhook body for the C2 counterexample: `sha1_hash` does not verify. -/
def cexBody2 : NotifyBody :=
  ⟨none, none, some "50.00", none, none, none, some "false", some "pay_c2", none,
   some "ffffffffffffffffffffffffffffffffffffffff"⟩

/-- Orders table for the C2 counterexample: one pending order. -/
def cexOrders2 : Orders := [("pay_c2", ⟨5, false⟩)]

/-- Orders table for the C2 witness. -/
def wOrders2 : Orders := [("pay_m", ⟨4, true⟩)]

/-- Webhook body for the C2 witness. -/
def wBody2 : NotifyBody :=
  ⟨none, none, none, none, none, none, some "false", some "pay_m", none, none⟩

/-- Webhook body for the C5 counterexample: its `sha1_hash` does not match
the digest recomputed with the empty secret. -/
def cexBody5 : NotifyBody :=
  ⟨none, none, some "125.00", none, none, none, some "false", some "pay_c5",
   some "10.00", some "0123456789abcdef0123456789abcdef01234567"⟩

/-- Webhook body for the C5 witness: a mismatching `sha1_hash` under the
non-empty secret `"s5"`. -/
def wBody5 : NotifyBody :=
  ⟨some "p2p-incoming", some "op5", some "10.00", some "643", none, none,
   some "false", some "pay_w5", none,
   some "0000000000000000000000000000000000000000"⟩

/-- Orders table for the C5 counterexample. -/
def cexOrders5 : Orders := [("pay_c5", ⟨3, false⟩)]

/-- Webhook body for the C8 witness: a correctly signed, code-protected
notification whose label matches the pending order `pay_a1`. -/
def wBody8 : NotifyBody :=
  ⟨some "p2p-incoming", some "op8", some "100.00", some "643",
   some "2025-01-01T10:00:00Z", none, some "true", some "pay_a1", none,
   some "2e247a20f584909e6b995aac737c1d354844ad64"⟩

/-- Webhook body for the C9 witness: correctly signed, not
code-protected, label `nolabel` absent from the table. -/
def wBody9 : NotifyBody :=
  ⟨some "p2p-incoming", some "op9", some "50.00", some "643",
   some "2025-01-02T10:00:00Z", none, some "false", some "nolabel", none,
   some "dc77a03402bf11396f736855e9398d335d7bba8d"⟩

/-- Webhook body for the C10 witness: correctly signed, with
`withdraw_amount` `123.45` and `amount` `125.00` for the pending order
`pay_b1`. -/
def wBody10 : NotifyBody :=
  ⟨some "p2p-incoming", some "op10", some "125.00", some "643",
   some "2025-01-03T10:00:00Z", none, some "false", some "pay_b1",
   some "123.45", some "f7dce1d664992328730aac2880cbd90bd5e325f8"⟩

/-! ### SHA-1 test vectors -/

/-- Standard test vector: SHA-1 of `"abc"`. -/
theorem sha1Hex_abc : sha1Hex "abc" = "a9993e364706816aba3e25717850c26c9cd0d89d" := by
  decide

/-- Standard test vector: SHA-1 of the empty string. -/
theorem sha1Hex_empty : sha1Hex "" = "da39a3ee5e6b4b0d3255bfef95601890afd80709" := by
  decide

/-! ### Map lemmas -/

theorem ordersGet_set_self (m : Orders) (k : String) (v : Order) :
    ordersGet (ordersSet m k v) k = some v := by
  induction m with
  | nil => simp [ordersSet, ordersGet]
  | cons p rest ih =>
      obtain ⟨k', w⟩ := p
      by_cases h : k' = k
      · simp [ordersSet, ordersGet, h]
      · simp [ordersSet, ordersGet, h, ih]

theorem ordersGet_set_ne (m : Orders) (k key : String) (v : Order) (h : key ≠ k) :
    ordersGet (ordersSet m k v) key = ordersGet m key := by
  have hk : ¬(k = key) := fun e => h (Eq.symm e)
  induction m with
  | nil => simp [ordersSet, ordersGet, hk]
  | cons p rest ih =>
      obtain ⟨k', w⟩ := p
      by_cases hkk : k' = k
      · subst hkk
        simp [ordersSet, ordersGet, hk]
      · simp only [ordersSet, if_neg hkk, ordersGet]
        by_cases hkey : k' = key
        · simp [hkey]
        · simp [hkey, ih]

theorem ordersGet_delete_self (m : Orders) (k : String) :
    ordersGet (ordersDelete m k) k = none := by
  induction m with
  | nil => simp [ordersDelete, ordersGet]
  | cons p rest ih =>
      obtain ⟨k', w⟩ := p
      by_cases h : k' = k
      · simp [ordersDelete, h, ih]
      · simp [ordersDelete, ordersGet, h, ih]

theorem ordersGet_delete_ne (m : Orders) (k key : String) (h : key ≠ k) :
    ordersGet (ordersDelete m k) key = ordersGet m key := by
  induction m with
  | nil => simp [ordersDelete]
  | cons p rest ih =>
      obtain ⟨k', w⟩ := p
      by_cases hkk : k' = k
      · subst hkk
        have hks : ¬(k' = key) := fun e => h (Eq.symm e)
        simp [ordersDelete, ordersGet, hks, ih]
      · simp only [ordersDelete, if_neg hkk, ordersGet]
        by_cases hkey : k' = key
        · simp [hkey]
        · simp [hkey, ih]

/-! ### Lowercase hexadecimal output -/

theorem isLowerHexChar_hexDigit (n : Nat) : isLowerHexChar (hexDigit (n % 16)) = true := by
  have h : n % 16 < 16 := Nat.mod_lt _ (by omega)
  set m := n % 16 with hm
  interval_cases m <;> decide

theorem hex8Chars_all_lowerHex (n : Nat) : (hex8Chars n).all isLowerHexChar = true := by
  rw [List.all_eq_true]
  intro c hc
  rw [hex8Chars, List.mem_map] at hc
  obtain ⟨i, _, rfl⟩ := hc
  exact isLowerHexChar_hexDigit _

theorem sha1Hex_lowercaseHex (s : String) : (sha1Hex s).data.all isLowerHexChar = true := by
  unfold sha1Hex
  simp only [List.all_append, hex8Chars_all_lowerHex, Bool.and_self]

/-! ### Facts about `Dec` and the amount computation -/

/-- A `Dec` with zero mantissa floors to zero. -/
theorem Dec.floor_of_isZero (d : Dec) (h : d.mant = 0) : d.floor = 0 := by
  simp [Dec.floor, h, Int.zero_fdiv]

/-- Faithfulness of `Dec.floor`: it is the mathematical floor of the
rational value the `Dec` represents, as `Math.floor` is on the JS value. -/
theorem Dec.floor_eq_ratFloor (d : Dec) : d.floor = ⌊d.toRat⌋ := by
  unfold Dec.floor Dec.toRat
  have h1 : ((10 : ℚ)) ^ d.exp = ((10 ^ d.exp : ℕ) : ℚ) := by push_cast; ring
  rw [h1, Rat.floor_intCast_div_natCast, Int.fdiv_eq_ediv]
  · push_cast
    rfl
  · positivity

/-- The claim's description agrees with the handler's
`Math.floor(parseFloat(w) || parseFloat(a) || 0) || orig` computation. -/
theorem claimedNewAmount_eq (b : NotifyBody) (orig : Int) :
    claimedNewAmount b orig =
      if (notifyAmount b).floor = 0 then orig else (notifyAmount b).floor := by
  unfold claimedNewAmount notifyAmount
  cases hw : parseFloatJS b.withdraw_amount with
  | none =>
      cases ha : parseFloatJS b.amount with
      | none => simp [jsNumOr, Dec.zero, Dec.floor]
      | some y =>
          by_cases hy : y.isZero
          · have hy0 : y.mant = 0 := by simpa [Dec.isZero] using hy
            simp [jsNumOr, hy, hy0, Dec.zero, Dec.floor, Int.zero_fdiv]
          · simp [jsNumOr, hy]
  | some x =>
      by_cases hx : x.isZero
      · have hx0 : x.mant = 0 := by simpa [Dec.isZero] using hx
        cases ha : parseFloatJS b.amount with
        | none => simp [jsNumOr, hx, Dec.zero, Dec.floor]
        | some y =>
            by_cases hy : y.isZero
            · have hy0 : y.mant = 0 := by simpa [Dec.isZero] using hy
              simp [jsNumOr, hx, hy, hy0, Dec.zero, Dec.floor, Int.zero_fdiv]
            · simp [jsNumOr, hx, hy]
      · simp [jsNumOr, hx]

/-! ### Claim C1 -/

/-- C1: `verifyYooMoneySignature(params)` returns true iff `params.sha1_hash`
equals the lowercase hexadecimal SHA-1 digest of the `&`-join of the nine
values `notification_type`, `operation_id`, `amount`, `currency`, `datetime`,
`sender` (empty when absent), `codepro`, the configured `YOOMONEY_SECRET`
and `label` (empty when absent), in that order; every other digest value is
rejected.  The second conjunct records that the recomputed digest consists
of lowercase hexadecimal characters only. -/
theorem verifyYooMoneySignature_iff_sha1 (secret : String) (p : NotifyBody) :
    (verifyYooMoneySignature secret p = true ↔
      p.sha1_hash = some (sha1Hex (signatureString secret p)))
    ∧ (sha1Hex (signatureString secret p)).data.all isLowerHexChar = true := by
  constructor
  · unfold verifyYooMoneySignature
    cases hh : p.sha1_hash with
    | none =>
        constructor
        · intro h
          exact absurd h Bool.false_ne_true
        · intro h
          exact Option.noConfusion h
    | some d =>
        constructor
        · intro h
          exact congrArg some (eq_of_beq h).symm
        · intro h
          have hd : sha1Hex (signatureString secret p) = d := (Option.some.inj h).symm
          rw [hd]
          exact beq_self_eq_true d
  · exact sha1Hex_lowercaseHex _

/-! ### Claim C2 -/

/-- C2 counterexample: with an empty `YOOMONEY_SECRET` the webhook marks a
pending order paid although `verifyYooMoneySignature` rejects the request's
signature — the signature check is skipped entirely. -/
theorem order_paid_without_verification_cex :
    verifyYooMoneySignature "" cexBody2 = false ∧
    ordersGet cexOrders2 "pay_c2" = some ⟨5, false⟩ ∧
    ordersGet (yoomoneyNotify "" cexOrders2 cexBody2).2 "pay_c2" = some ⟨50, true⟩ := by
  decide

/-- C2 (amended): the `paid` flag only ever transitions from `false` to
`true`, never back: the webhook keeps paid orders paid, the confirm
handler never modifies a surviving entry, and create-payment (with a
fresh label, per the label-uniqueness invariant) leaves every existing
entry unchanged and only ever adds an unpaid entry.  The webhook marks
an order paid only after `verifyYooMoneySignature` succeeds whenever
`YOOMONEY_SECRET` is non-empty; with an empty secret the signature check
is skipped. -/
theorem order_paid_lifecycle (secret wallet : String) (orders : Orders)
    (b : NotifyBody) (q : Option String) (amt : Option Dec) (lbl : String) :
    (∀ l o, ordersGet orders l = some o → o.paid = true →
      ∃ o', ordersGet (yoomoneyNotify secret orders b).2 l = some o' ∧ o'.paid = true)
    ∧ (secret ≠ "" →
        ∀ l o o', ordersGet orders l = some o → o.paid = false →
          ordersGet (yoomoneyNotify secret orders b).2 l = some o' → o'.paid = true →
          verifyYooMoneySignature secret b = true)
    ∧ (∀ l o', ordersGet (confirmPayment orders q).2 l = some o' →
        ordersGet orders l = some o')
    ∧ (ordersGet orders lbl = none →
        (∀ l o, ordersGet orders l = some o →
          ordersGet (createPayment wallet orders amt lbl).2 l = some o)
        ∧ ∀ l o', ordersGet (createPayment wallet orders amt lbl).2 l = some o' →
            ordersGet orders l = some o' ∨ (l = lbl ∧ o'.paid = false)) := by
  refine ⟨?_, ?_, ?_, ?_⟩
  · intro l o hget hpaid
    unfold yoomoneyNotify
    split
    · exact ⟨o, hget, hpaid⟩
    · split
      · exact ⟨o, hget, hpaid⟩
      · dsimp only
        cases hlbl : ordersGet orders (b.label.getD "") with
        | none => exact ⟨o, hget, hpaid⟩
        | some order =>
            dsimp only
            by_cases he : b.label.getD "" = ""
            · rw [if_pos he]
              exact ⟨o, hget, hpaid⟩
            · rw [if_neg he]
              by_cases hl : l = b.label.getD ""
              · subst hl
                exact ⟨_, ordersGet_set_self _ _ _, rfl⟩
              · rw [ordersGet_set_ne _ _ _ _ hl]
                exact ⟨o, hget, hpaid⟩
  · intro hs l o o' hget hunpaid hget' hpaid'
    by_cases hv : verifyYooMoneySignature secret b = true
    · exact hv
    · exfalso
      have hb : verifyYooMoneySignature secret b = false := by
        cases hvb : verifyYooMoneySignature secret b
        · rfl
        · exact absurd hvb hv
      unfold yoomoneyNotify at hget'
      rw [if_pos ⟨hs, hb⟩] at hget'
      rw [hget] at hget'
      cases hget'
      rw [hunpaid] at hpaid'
      exact Bool.false_ne_true hpaid'
  · intro l o' hget'
    unfold confirmPayment at hget'
    cases q with
    | none => exact hget'
    | some oid =>
        dsimp only at hget'
        by_cases ho : oid = ""
        · rw [if_pos ho] at hget'
          exact hget'
        · rw [if_neg ho] at hget'
          cases hg : ordersGet orders oid with
          | none =>
              rw [hg] at hget'
              exact hget'
          | some order =>
              rw [hg] at hget'
              dsimp only at hget'
              by_cases hp : order.paid = false
              · rw [if_pos hp] at hget'
                exact hget'
              · rw [if_neg hp] at hget'
                by_cases hl : l = oid
                · subst hl
                  rw [ordersGet_delete_self] at hget'
                  exact Option.noConfusion hget'
                · rw [ordersGet_delete_ne _ _ _ hl] at hget'
                  exact hget'
  · intro hfresh
    constructor
    · intro l o hget
      have hl : l ≠ lbl := by
        intro e
        rw [e, hfresh] at hget
        exact Option.noConfusion hget
      unfold createPayment
      dsimp only
      split
      · exact hget
      · split
        · exact hget
        · rw [ordersGet_set_ne _ _ _ _ hl]
          exact hget
    · intro l o' hget'
      unfold createPayment at hget'
      dsimp only at hget'
      split at hget'
      · exact Or.inl hget'
      · split at hget'
        · exact Or.inl hget'
        · by_cases hl : l = lbl
          · subst hl
            rw [ordersGet_set_self] at hget'
            cases hget'
            exact Or.inr ⟨rfl, rfl⟩
          · rw [ordersGet_set_ne _ _ _ _ hl] at hget'
            exact Or.inl hget'

theorem order_paid_lifecycle_witness :
    (ordersGet wOrders2 "pay_m" = some ⟨4, true⟩ ∧ (⟨4, true⟩ : Order).paid = true) ∧
    (∃ o', ordersGet (yoomoneyNotify "" wOrders2 wBody2).2 "pay_m" = some o' ∧
      o'.paid = true) ∧
    (ordersGet wOrders2 "pay_new" = none ∧
      ordersGet (createPayment "w" wOrders2 (some ⟨6, 0⟩) "pay_new").2 "pay_m" =
        some ⟨4, true⟩) :=
  ⟨⟨by decide, by decide⟩,
    (order_paid_lifecycle "" "w" wOrders2 wBody2 none none "x").1 "pay_m" ⟨4, true⟩
      (by decide) (by decide),
    by decide,
    ((order_paid_lifecycle "" "w" wOrders2 wBody2 none (some ⟨6, 0⟩) "pay_new").2.2.2
        (by decide)).1 "pay_m" ⟨4, true⟩ (by decide)⟩

/-! ### Claim C3 -/

/-- C3: for a paid order (its label, generated as `pay_...`, is
non-empty), the first `GET /api/confirm-payment` returns its `amountRub`
and deletes the entry; a second request with the same `orderId` is
answered 404. -/
theorem confirm_payment_paid_read_once (orders : Orders) (oid : String) (o : Order)
    (hoid : oid ≠ "") (hget : ordersGet orders oid = some o) (hpaid : o.paid = true) :
    confirmPayment orders (some oid) =
      (⟨200, ReplyBody.amountOnly o.amountRub⟩, ordersDelete orders oid)
    ∧ (confirmPayment (confirmPayment orders (some oid)).2 (some oid)).1 =
        ⟨404, ReplyBody.jsonError "Order not found"⟩ := by
  have h1 : confirmPayment orders (some oid) =
      (⟨200, ReplyBody.amountOnly o.amountRub⟩, ordersDelete orders oid) := by
    unfold confirmPayment
    dsimp only
    rw [if_neg hoid, hget]
    dsimp only
    rw [if_neg (by rw [hpaid]; exact fun h => Bool.false_ne_true h.symm)]
  refine ⟨h1, ?_⟩
  rw [h1]
  unfold confirmPayment
  dsimp only
  rw [if_neg hoid, ordersGet_delete_self]

theorem confirm_payment_paid_read_once_witness :
    (("pay_w" : String) ≠ "" ∧ ordersGet [("pay_w", ⟨7, true⟩)] "pay_w" = some ⟨7, true⟩ ∧
      (⟨7, true⟩ : Order).paid = true) ∧
    confirmPayment [("pay_w", ⟨7, true⟩)] (some "pay_w") =
      (⟨200, ReplyBody.amountOnly 7⟩, ordersDelete [("pay_w", ⟨7, true⟩)] "pay_w") ∧
    (confirmPayment (confirmPayment [("pay_w", ⟨7, true⟩)] (some "pay_w")).2
      (some "pay_w")).1 = ⟨404, ReplyBody.jsonError "Order not found"⟩ :=
  ⟨⟨by decide, by decide, by decide⟩,
    confirm_payment_paid_read_once [("pay_w", ⟨7, true⟩)] "pay_w" ⟨7, true⟩
      (by decide) (by decide) (by decide)⟩

/-! ### Claim C4 -/

/-- C4: for an unpaid order present in the table, `GET /api/confirm-payment`
returns a JSON body with amount `0` and leaves the whole orders table
(and hence the entry) unchanged. -/
theorem confirm_payment_unpaid_zero (orders : Orders) (oid : String) (o : Order)
    (hoid : oid ≠ "") (hget : ordersGet orders oid = some o) (hunpaid : o.paid = false) :
    confirmPayment orders (some oid) =
      (⟨200, ReplyBody.amountMsg 0 "Waiting for YooMoney confirmation..."⟩, orders) := by
  unfold confirmPayment
  dsimp only
  rw [if_neg hoid, hget]
  dsimp only
  rw [if_pos hunpaid]

theorem confirm_payment_unpaid_zero_witness :
    (("pay_u" : String) ≠ "" ∧ ordersGet [("pay_u", ⟨3, false⟩)] "pay_u" = some ⟨3, false⟩ ∧
      (⟨3, false⟩ : Order).paid = false) ∧
    confirmPayment [("pay_u", ⟨3, false⟩)] (some "pay_u") =
      (⟨200, ReplyBody.amountMsg 0 "Waiting for YooMoney confirmation..."⟩,
        [("pay_u", ⟨3, false⟩)]) :=
  ⟨⟨by decide, by decide, by decide⟩,
    confirm_payment_unpaid_zero [("pay_u", ⟨3, false⟩)] "pay_u" ⟨3, false⟩
      (by decide) (by decide) (by decide)⟩

/-! ### Claim C5 -/

/-- C5 counterexample: when `YOOMONEY_SECRET` is empty the signature check
is skipped, so a request whose `sha1_hash` does not match the recomputed
signature is answered 200 `OK` (not 400) and the orders table changes. -/
theorem bad_signature_not_rejected_cex :
    verifyYooMoneySignature "" cexBody5 = false ∧
    (yoomoneyNotify "" cexOrders5 cexBody5).1 = ⟨200, ReplyBody.text "OK"⟩ ∧
    (yoomoneyNotify "" cexOrders5 cexBody5).2 ≠ cexOrders5 := by
  decide

/-- C5 (amended): when `YOOMONEY_SECRET` is non-empty, every notify request
whose `sha1_hash` does not match the recomputed signature is answered
HTTP 400 `bad signature` and the orders table is left unchanged. -/
theorem bad_signature_rejected (secret : String) (orders : Orders) (b : NotifyBody)
    (hs : secret ≠ "") (hv : verifyYooMoneySignature secret b = false) :
    yoomoneyNotify secret orders b = (⟨400, ReplyBody.text "bad signature"⟩, orders) := by
  unfold yoomoneyNotify
  rw [if_pos ⟨hs, hv⟩]

theorem bad_signature_rejected_witness :
    (("s5" : String) ≠ "" ∧ verifyYooMoneySignature "s5" wBody5 = false) ∧
    yoomoneyNotify "s5" [("pay_w5", ⟨2, false⟩)] wBody5 =
      (⟨400, ReplyBody.text "bad signature"⟩, [("pay_w5", ⟨2, false⟩)]) :=
  ⟨⟨by decide, by decide⟩,
    bad_signature_rejected "s5" [("pay_w5", ⟨2, false⟩)] wBody5 (by decide) (by decide)⟩

/-! ### Claim C6 -/

/-- C6 counterexample: the query string `?orderId=` carries a present but
empty `orderId`; it has no entry in the table, yet the handler answers
400 `No orderId`, not 404. -/
theorem confirm_empty_orderId_cex :
    ordersGet ([("pay_x", ⟨1, false⟩)] : Orders) "" = none ∧
    confirmPayment ([("pay_x", ⟨1, false⟩)] : Orders) (some "") =
      (⟨400, ReplyBody.jsonError "No orderId"⟩, [("pay_x", ⟨1, false⟩)]) ∧
    (confirmPayment ([("pay_x", ⟨1, false⟩)] : Orders) (some "")).1.status ≠ 404 := by
  decide

/-- C6 (amended): for every request whose `orderId` is present and
non-empty but has no entry in the orders table, the handler answers 404
with an error message and the orders table is unchanged. -/
theorem confirm_unknown_order_404 (orders : Orders) (oid : String)
    (hoid : oid ≠ "") (hget : ordersGet orders oid = none) :
    confirmPayment orders (some oid) =
      (⟨404, ReplyBody.jsonError "Order not found"⟩, orders) := by
  unfold confirmPayment
  dsimp only
  rw [if_neg hoid, hget]

theorem confirm_unknown_order_404_witness :
    (("pay_nope" : String) ≠ "" ∧ ordersGet [("pay_x", ⟨1, false⟩)] "pay_nope" = none) ∧
    confirmPayment [("pay_x", ⟨1, false⟩)] (some "pay_nope") =
      (⟨404, ReplyBody.jsonError "Order not found"⟩, [("pay_x", ⟨1, false⟩)]) :=
  ⟨⟨by decide, by decide⟩,
    confirm_unknown_order_404 [("pay_x", ⟨1, false⟩)] "pay_nope" (by decide) (by decide)⟩

/-! ### Claim C7 -/

/-- C7: `POST /api/create-payment` rejects with 400 every request whose
amount, after JS numeric conversion and flooring, is below 1 (this covers
missing, non-numeric, zero, negative and fractional-below-1 amounts,
whose converted-or-defaulted value floors below 1), and with 500 every
valid-amount request when the wallet is not configured; in both cases no
order is created. -/
theorem create_payment_rejects (wallet : String) (orders : Orders)
    (amt : Option Dec) (lbl : String) :
    ((jsNumOr amt Dec.zero).floor < 1 →
      createPayment wallet orders amt lbl =
        (⟨400, ReplyBody.jsonError "Сумма должна быть не менее 1 руб"⟩, orders))
    ∧ (1 ≤ (jsNumOr amt Dec.zero).floor → wallet = "" →
      createPayment wallet orders amt lbl =
        (⟨500, ReplyBody.jsonError "YOOMONEY_WALLET not set"⟩, orders)) := by
  constructor
  · intro h
    unfold createPayment
    dsimp only
    rw [if_pos h]
  · intro h hw
    unfold createPayment
    dsimp only
    rw [if_neg (by omega), if_pos hw]

theorem create_payment_rejects_witness :
    ((jsNumOr (some ⟨5, 1⟩) Dec.zero).floor < 1 ∧
      createPayment "w7" [] (some ⟨5, 1⟩) "pay_w7" =
        (⟨400, ReplyBody.jsonError "Сумма должна быть не менее 1 руб"⟩, [])) ∧
    (1 ≤ (jsNumOr (some ⟨5, 0⟩) Dec.zero).floor ∧
      createPayment "" [] (some ⟨5, 0⟩) "pay_w7" =
        (⟨500, ReplyBody.jsonError "YOOMONEY_WALLET not set"⟩, [])) :=
  ⟨⟨by decide, (create_payment_rejects "w7" [] (some ⟨5, 1⟩) "pay_w7").1 (by decide)⟩,
   ⟨by decide, (create_payment_rejects "" [] (some ⟨5, 0⟩) "pay_w7").2 (by decide) rfl⟩⟩

/-! ### Claim C8 -/

/-- C8: a notify request that passes the signature check and carries
`codepro = 'true'` is answered 200 `OK` with the orders table completely
unchanged, even when its label matches a pending order. -/
theorem notify_codepro_protected (secret : String) (orders : Orders) (b : NotifyBody)
    (hv : verifyYooMoneySignature secret b = true) (hcp : b.codepro = some "true") :
    yoomoneyNotify secret orders b = (⟨200, ReplyBody.text "OK"⟩, orders) := by
  unfold yoomoneyNotify
  rw [if_neg (fun h => Bool.false_ne_true (h.2.symm.trans hv)), if_pos hcp]

theorem notify_codepro_protected_witness :
    (verifyYooMoneySignature "s8" wBody8 = true ∧ wBody8.codepro = some "true") ∧
    yoomoneyNotify "s8" [("pay_a1", ⟨9, false⟩)] wBody8 =
      (⟨200, ReplyBody.text "OK"⟩, [("pay_a1", ⟨9, false⟩)]) :=
  ⟨⟨by decide, by decide⟩,
    notify_codepro_protected "s8" [("pay_a1", ⟨9, false⟩)] wBody8 (by decide) (by decide)⟩

/-! ### Claim C9 -/

/-- C9: a notify request that passes the signature check, is not
code-protected, and whose label is empty or absent from the orders table
is still answered 200 `OK` (never 404) and the table is unchanged. -/
theorem notify_unknown_label_ok (secret : String) (orders : Orders) (b : NotifyBody)
    (hv : verifyYooMoneySignature secret b = true) (hcp : b.codepro ≠ some "true")
    (hlbl : b.label.getD "" = "" ∨ ordersGet orders (b.label.getD "") = none) :
    yoomoneyNotify secret orders b = (⟨200, ReplyBody.text "OK"⟩, orders) := by
  unfold yoomoneyNotify
  rw [if_neg (fun h => Bool.false_ne_true (h.2.symm.trans hv)), if_neg hcp]
  dsimp only
  rcases hlbl with he | hn
  · cases hg : ordersGet orders (b.label.getD "") with
    | none => rfl
    | some order =>
        dsimp only
        rw [if_pos he]
  · rw [hn]

theorem notify_unknown_label_ok_witness :
    (verifyYooMoneySignature "s9" wBody9 = true ∧ wBody9.codepro ≠ some "true" ∧
      ordersGet ([] : Orders) (wBody9.label.getD "") = none) ∧
    yoomoneyNotify "s9" [] wBody9 = (⟨200, ReplyBody.text "OK"⟩, []) :=
  ⟨⟨by decide, by decide, by decide⟩,
    notify_unknown_label_ok "s9" [] wBody9 (by decide) (by decide) (Or.inr (by decide))⟩

/-! ### Claim C10 -/

/-- C10: when a notify request confirms a known order, the stored
`amountRub` becomes exactly the value the claim describes
(`claimedNewAmount`), and it is never 0 when the originally requested
amount was non-zero. -/
theorem notify_amount_update (secret : String) (orders : Orders) (b : NotifyBody)
    (o : Order) (hv : verifyYooMoneySignature secret b = true)
    (hcp : b.codepro ≠ some "true") (hlbl : b.label.getD "" ≠ "")
    (hget : ordersGet orders (b.label.getD "") = some o) :
    ordersGet (yoomoneyNotify secret orders b).2 (b.label.getD "") =
      some { amountRub := claimedNewAmount b o.amountRub, paid := true }
    ∧ (o.amountRub ≠ 0 → claimedNewAmount b o.amountRub ≠ 0) := by
  constructor
  · unfold yoomoneyNotify
    rw [if_neg (fun h => Bool.false_ne_true (h.2.symm.trans hv)), if_neg hcp]
    dsimp only
    rw [hget]
    dsimp only
    rw [if_neg hlbl, ordersGet_set_self, claimedNewAmount_eq]
  · intro ho
    rw [claimedNewAmount_eq]
    split
    · exact ho
    · next hne => exact hne

theorem notify_amount_update_witness :
    (verifyYooMoneySignature "s10" wBody10 = true ∧ wBody10.codepro ≠ some "true" ∧
      wBody10.label.getD "" ≠ "" ∧
      ordersGet [("pay_b1", ⟨7, false⟩)] (wBody10.label.getD "") = some ⟨7, false⟩) ∧
    (ordersGet (yoomoneyNotify "s10" [("pay_b1", ⟨7, false⟩)] wBody10).2
        (wBody10.label.getD "") =
      some { amountRub := claimedNewAmount wBody10 7, paid := true } ∧
      claimedNewAmount wBody10 7 = 123) :=
  ⟨⟨by decide, by decide, by decide, by decide⟩,
   ⟨(notify_amount_update "s10" [("pay_b1", ⟨7, false⟩)] wBody10 ⟨7, false⟩
       (by decide) (by decide) (by decide) (by decide)).1, by decide⟩⟩
